import Mathlib

/-!
Verification of the property-management AI backend (invoice classifier and
voice assistant) against its specification.  The Python source is embedded
shallowly: JSON values become a mutual inductive type, the remote model is a
black box whose outcome is an explicit parameter, and each handler becomes a
total Lean function mirroring the source control flow.
-/

namespace MyteAI

/-! ## JSON values

A generic JSON value, mirroring the Python objects produced by `json.loads`:
dicts, lists, strings, numbers, booleans and `None`.  Dicts are association
lists in insertion order (Python dicts preserve insertion order and have
unique keys). -/

mutual

inductive Json where
  | null : Json
  | bool : Bool → Json
  | num : ℚ → Json
  | str : String → Json
  | arr : JList → Json
  | obj : JObj → Json

inductive JList where
  | nil : JList
  | cons : Json → JList → JList

inductive JObj where
  | nil : JObj
  | cons : String → Json → JObj → JObj

end

deriving instance DecidableEq for Json, JList, JObj

/-- Python `d.get(k)`: the value at key `k`, or `None` when the key is
absent.  Keys are unique in dicts coming from `json.loads`, so first-match
lookup agrees with Python. -/
def jGet : JObj → String → Json
  | .nil, _ => .null
  | .cons k v tl, key => if k = key then v else jGet tl key

/-- Python `k in d` / `d.get(k, default)` presence test: the value at key
`k` when the key is present (even when its value is `None`). -/
def jFind : JObj → String → Option Json
  | .nil, _ => none
  | .cons k v tl, key => if k = key then some v else jFind tl key

/-- Python `d.get(k, default)`. -/
def jGetD (d : JObj) (key : String) (dflt : Json) : Json :=
  (jFind d key).getD dflt

/-- Python `d[k] = v`: replace the value at `k` in place when the key is
present, append the pair otherwise. -/
def jSet : JObj → String → Json → JObj
  | .nil, key, v => .cons key v .nil
  | .cons k w tl, key, v =>
    if k = key then .cons k v tl else .cons k w (jSet tl key v)

/-- `Json.null` test (Python `x is None`). -/
def Json.isNull : Json → Bool
  | .null => true
  | _ => false

/-! ### Python string primitives

Character-list implementations of the Python string methods the handlers
use (`upper`, `lower`, `endswith`, `split`), so that concrete runs reduce
inside the kernel. -/

/-- Python `s.upper()`. -/
def pyUpper (s : String) : String := ⟨s.data.map Char.toUpper⟩

/-- Python `s.lower()`. -/
def pyLower (s : String) : String := ⟨s.data.map Char.toLower⟩

/-- Whether the second character list starts with the first. -/
def startsChars : List Char → List Char → Bool
  | [], _ => true
  | _ :: _, [] => false
  | a :: as, b :: bs => a == b && startsChars as bs

/-- Python `s.endswith(tail)`. -/
def pyEndsWith (s tail : String) : Bool :=
  startsChars tail.data.reverse s.data.reverse

/-- Python `s.split(sep)` on character lists (always at least one piece). -/
def splitChars (sep : Char) : List Char → List (List Char)
  | [] => [[]]
  | c :: cs =>
    let rest := splitChars sep cs
    if c == sep then [] :: rest
    else
      match rest with
      | [] => [[c]]
      | r :: rs => (c :: r) :: rs

/-! ## Invoice classifier: recursive null-collapsing

`InvoiceProcessor._validate_and_clean_data`: dicts are cleaned pointwise,
empty lists collapse to `None`, non-empty lists are cleaned pointwise,
whitespace-only strings collapse to `None`, and every other value is
returned unchanged. -/

mutual

def clean : Json → Json
  | .obj kvs => .obj (cleanObj kvs)
  | .arr .nil => .null
  | .arr (.cons x xs) => .arr (cleanList (.cons x xs))
  | .str s => if s.trim = "" then .null else .str s
  | v => v

def cleanList : JList → JList
  | .nil => .nil
  | .cons x xs => .cons (clean x) (cleanList xs)

def cleanObj : JObj → JObj
  | .nil => .nil
  | .cons k v tl => .cons k (clean v) (cleanObj tl)

end

/-! ## Invoice classifier: processor

`InvoiceProcessor.process_file_bytes` and its helpers.  The remote model
call is a black box (per the spec it "is treated as a black box returning
structured JSON or failing"), so its outcome is an explicit parameter: it
raised, it answered without a tool call, or it answered with the parsed
arguments of the `parse_invoice` function call (a JSON object) together
with the reported token usage.  Wall-clock-derived strings (timings,
timestamps, the formatted file size) are opaque inputs. -/

/-- Modelled from the spec: `OTHER_CLASS`, imported from
`invoice_classifier/constants.py` which is not in the source tree; the spec
glossary fixes the fallback expense class as `"Other"`. -/
def OTHER_CLASS : String := "Other"

/-- Token usage as reported by the remote API (`calculate_token_usage`). -/
structure TokenUsage where
  prompt_tokens : Nat
  completion_tokens : Nat
  total_tokens : Nat
deriving DecidableEq

def zeroUsage : TokenUsage := ⟨0, 0, 0⟩

/-- The `metadata` block attached to a processed invoice record.  Keys that
appear only on some paths (`error`, `raw_ai_output`, `api_processing_time`,
`model_used`) are `Option`s; `none` means the key is absent from the dict. -/
structure Metadata where
  filename : String
  processing_time : String
  timestamp : String
  file_size : String
  token_usage : TokenUsage
  error : Option String
  raw_ai_output : Option Json
  api_processing_time : Option String
  model_used : Option String

/-- Wall-clock-derived strings of one `process_file_bytes` run, opaque to
the embedding: total and API-call durations, the two timestamps taken at
start (`started_at`) and at null-response generation, and the formatted
file size. -/
structure Timing where
  processing_time : String
  api_processing_time : String
  started_at : String
  now : String
  file_size : String

/-- The result of `process_file_bytes`: the invoice-field dict (everything
except the `"metadata"` key) plus the metadata block. -/
structure ProcResponse where
  fields : JObj
  metadata : Metadata

/-- The nine extracted invoice fields, in the order the null record lists
them. -/
def extractedFieldKeys : List String :=
  ["vendor_name", "vendor_address", "invoice_number", "invoice_date",
   "due_date", "total_amount", "currency", "tax_amount", "description_summary"]

/-- The field dict of `InvoiceProcessor._generate_null_response`: all nine
extracted fields explicitly `None`, and `expense_class` set to
`OTHER_CLASS`. -/
def nullFields : JObj :=
  .cons "vendor_name" .null (.cons "vendor_address" .null
    (.cons "invoice_number" .null (.cons "invoice_date" .null
      (.cons "due_date" .null (.cons "total_amount" .null
        (.cons "currency" .null (.cons "tax_amount" .null
          (.cons "description_summary" .null
            (.cons "expense_class" (.str OTHER_CLASS) .nil)))))))))

/-- `InvoiceProcessor._generate_null_response`. -/
def nullResponse (filename : String) (t : Timing) (usage : TokenUsage) :
    ProcResponse :=
  { fields := nullFields
    metadata :=
      { filename := filename
        processing_time := t.processing_time
        timestamp := t.now
        file_size := t.file_size
        token_usage := usage
        error := some "Document does not appear to be a valid invoice or is empty."
        raw_ai_output := none
        api_processing_time := none
        model_used := none } }

/-- `validate_invoice_content`: both `expense_class` and `total_amount`
must be present and non-`None` (`d.get(k) is not None`). -/
def validate_invoice_content (d : JObj) : Bool :=
  !(jGet d "expense_class").isNull && !(jGet d "total_amount").isNull

/-- Outcome of the remote chat-completions call inside the `try` block of
`process_file_bytes`. -/
inductive ModelOutcome where
  | raised (msg : String)
  | noToolCall (usage : TokenUsage)
  | toolCall (args : JObj) (usage : TokenUsage)

/-- `InvoiceProcessor.process_file_bytes` from the remote call on: on an
exception, the null response with zeroed usage and the error overwritten
with the exception text; when the model answered without a tool call, the
null response with the reported usage; when the model invoked the
function, its arguments are recursively collapsed, gated by
`validate_invoice_content` (invalid records fall back to the null response
with the collapsed output stored under `raw_ai_output`), and valid records
get the success metadata attached. -/
def process_file_bytes (filename model_name : String) (t : Timing) :
    ModelOutcome → ProcResponse
  | .raised msg =>
    let r := nullResponse filename t zeroUsage
    { r with metadata :=
        { r.metadata with error := some ("Unexpected processing error: " ++ msg) } }
  | .noToolCall usage => nullResponse filename t usage
  | .toolCall args usage =>
    let invoice_data := cleanObj args
    if validate_invoice_content invoice_data then
      { fields := invoice_data
        metadata :=
          { filename := filename
            processing_time := t.processing_time
            timestamp := t.started_at
            file_size := t.file_size
            token_usage := usage
            error := none
            raw_ai_output := none
            api_processing_time := some t.api_processing_time
            model_used := some model_name } }
    else
      let r := nullResponse filename t usage
      { r with metadata :=
          { r.metadata with raw_ai_output := some (.obj invoice_data) } }

/-! ## Invoice classifier: upload gate (`parse_invoice_endpoint`) -/

/-- `Settings.ALLOWED_EXTENSIONS` (`get_settings` in the processor). -/
def ALLOWED_EXTENSIONS : List String := ["pdf", "png", "jpg", "jpeg"]

/-- `Settings.MAX_FILE_SIZE` (`get_settings` in the processor). -/
def MAX_FILE_SIZE : Nat := 10 * 1024 * 1024

inductive GateResult where
  | reject (status : Nat)
  | accept
deriving DecidableEq

/-- The upload gate at the top of `parse_invoice_endpoint`: 400 when the
filename is `None` or its lower-cased form ends with none of the allowed
extensions, 400 when the content is empty, 413 when it exceeds
`MAX_FILE_SIZE`. -/
def parse_invoice_gate (filename : Option String) (size : Nat) : GateResult :=
  match filename with
  | none => .reject 400
  | some name =>
    if !(ALLOWED_EXTENSIONS.any fun ext => pyEndsWith (pyLower name) ext) then
      .reject 400
    else if size = 0 then .reject 400
    else if MAX_FILE_SIZE < size then .reject 413
    else .accept

/-- The extension the processor derives from a filename:
`filename.lower().split('.')[-1]` (`convert_to_image`,
`process_file_bytes`). -/
def extensionOf (name : String) : String :=
  ⟨(splitChars '.' (pyLower name).data).getLastD []⟩

/-! ## Voice assistant: cost calculator -/

/-- Modelled from the spec: the `PRICING` rate table lives in
`voice_assistant/constants.py`, which is not in the source tree; the spec
fixes its shape (a fixed per-minute audio rate and per-million input and
output token rates) but not its numeric values, so the rates are abstract
fields. -/
structure Pricing where
  whisper_per_min : ℚ
  gpt4o_input_per_1m : ℚ
  gpt4o_output_per_1m : ℚ

/-- `calculate_cost` from `voice_assistant/processor.py`, parameterized by
the rate table it reads. -/
def calculate_cost (p : Pricing) (cost_type : String) (units : ℚ) : ℚ :=
  if cost_type = "audio" then units / 60 * p.whisper_per_min
  else if cost_type = "input_tokens" then units / 1000000 * p.gpt4o_input_per_1m
  else if cost_type = "output_tokens" then units / 1000000 * p.gpt4o_output_per_1m
  else 0

/-! ## Voice assistant: chat orchestrator (`analyze_ticket_state`) -/

/-- Modelled from the spec: `ALLOWED_CATEGORIES`, imported from
`voice_assistant/constants.py` which is not in the source tree; the fixed
enumerated set per the system prompt's category guidelines and the spec's
category taxonomy. -/
def ALLOWED_CATEGORIES : List String :=
  ["PLUMBING", "ELECTRICAL", "HVAC", "APPLIANCES", "STRUCTURAL", "PAINTING",
   "CLEANING", "PEST_CONTROL", "SECURITY", "GENERAL", "OTHER"]

/-- One iteration of the sanitization loop:
`category = ticket.get("category", "").upper()`, coerced to `"OTHER"` when
outside `ALLOWED_CATEGORIES`, written back in place.  `none` models the
`AttributeError` Python raises when the `category` value is not a
string. -/
def sanitizeTicket (t : JObj) : Option JObj :=
  match jGetD t "category" (.str "") with
  | .str s =>
    let category := pyUpper s
    some (jSet t "category"
      (.str (if ALLOWED_CATEGORIES.contains category then category else "OTHER")))
  | _ => none

/-- The sanitization loop over `content.get("tickets", [])`; `none` models
the exception raised on a non-dict element. -/
def sanitizeTickets : JList → Option (List JObj)
  | .nil => some []
  | .cons (.obj t) tl =>
    match sanitizeTicket t, sanitizeTickets tl with
    | some t', some ts => some (t' :: ts)
    | _, _ => none
  | .cons _ _ => none

/-- The `ChatResponse` constructed at the end of `analyze_ticket_state`
(`status` and `response_text` kept as the raw JSON values the handler reads
out of the model content). -/
structure ChatResp where
  status : Json
  response_text : Json
  tickets : List JObj
  usage_cost : ℚ

/-- Post-processing of `analyze_ticket_state` from the parsed model content
on: cost accounting from the reported usage, ticket sanitization, and the
defaulting reads of `status` and `response_text`.  `none` models the
exceptions the handler lets escape (non-list `tickets`, non-string
`category`). -/
def analyze_ticket_state (content : JObj) (promptTokens completionTokens : ℚ)
    (p : Pricing) : Option ChatResp :=
  let input_cost := calculate_cost p "input_tokens" promptTokens
  let output_cost := calculate_cost p "output_tokens" completionTokens
  match jGetD content "tickets" (.arr .nil) with
  | .arr ts =>
    (sanitizeTickets ts).map fun tks =>
      { status := jGetD content "status" (.str "completed")
        response_text := jGetD content "response_text" (.str "")
        tickets := tks
        usage_cost := input_cost + output_cost }
  | _ => none

/-- The whole chat turn: the caller-supplied `user_context` and
`image_count` flow only into the system prompt, i.e. into the black-box
remote model, here an arbitrary function from those prompt inputs to the
parsed JSON content of its reply; post-processing then runs on that
content. -/
def converse (model : JObj → Nat → JObj) (user_context : JObj)
    (image_count : Nat) (promptTokens completionTokens : ℚ) (p : Pricing) :
    Option ChatResp :=
  analyze_ticket_state (model user_context image_count)
    promptTokens completionTokens p

/-! ## Voice assistant: transcription (`transcribe_audio`) -/

/-- `get_audio_duration`: `frames / rate` when the wave container decodes,
`0.0` on any decode failure (the internal `try`/`except`). -/
def get_audio_duration (decoded : Option ℚ) : ℚ := decoded.getD 0

inductive TResult where
  | ok (text : String) (cost : ℚ)
  | httpError (status : Nat) (detail : String)

/-- `transcribe_audio` after the temp file is written: the first component
is the HTTP outcome (the `try`/`except` turns any remote failure into a 500),
the second whether the temp file still exists once the handler returns.
The `finally` block removes the file when present, on both exit paths. -/
def transcribe_audio (p : Pricing) (durationResult : Option ℚ)
    (remote : Except String String) : TResult × Bool :=
  let fsAfterWrite : Bool := true
  let body : Except String (String × ℚ) :=
    let duration := get_audio_duration durationResult
    let cost := calculate_cost p "audio" duration
    match remote with
    | .ok text => .ok (text, cost)
    | .error e => .error e
  let fsFinal : Bool := if fsAfterWrite then false else fsAfterWrite
  match body with
  | .ok (text, cost) => (.ok text cost, fsFinal)
  | .error e => (.httpError 500 e, fsFinal)

/-! ## Invoice classifier: document normalization -/

structure Color where
  r : Nat
  g : Nat
  b : Nat
deriving DecidableEq

def white : Color := ⟨255, 255, 255⟩

/-- An RGB raster image: dimensions plus a pixel map. -/
structure Img where
  width : Nat
  height : Nat
  pix : Nat → Nat → Color

def whiteImg (w h : Nat) : Img := ⟨w, h, fun _ _ => white⟩

/-- One PDF page, as the rasterizer sees it: `render d` is
`page.get_pixmap(dpi=d)` decoded to an RGB image. -/
structure Page where
  render : Nat → Img

def dummyPage : Page := ⟨fun _ => whiteImg 0 0⟩

/-- `InvoiceProcessor.pdf_to_images`: the loop renders each page at 150 DPI
and breaks once `page_num >= 3`. -/
def pdf_to_images (pages : List Page) : List Img :=
  (pages.take 3).map fun page => page.render 150

/-- The pixel at `(x, y)` of the concatenation canvas after the paste loop:
walk down the vertical bands; inside a band, the page's own pixel when `x`
is within its width, the white canvas otherwise. -/
def pasteColumn : List Img → Nat → Nat → Color
  | [], _, _ => white
  | img :: rest, x, y =>
    if y < img.height then (if x < img.width then img.pix x y else white)
    else pasteColumn rest x (y - img.height)

/-- `InvoiceProcessor.concat_images`: a 1×1 white image for an empty list,
otherwise a white canvas of width `max(widths)` and height `sum(heights)`
with each image pasted at `(0, y_offset)` in order. -/
def concat_images (images : List Img) : Img :=
  match images with
  | [] => whiteImg 1 1
  | imgs =>
    { width := (imgs.map (·.width)).foldr max 0
      height := (imgs.map (·.height)).sum
      pix := pasteColumn imgs }

/-- PDF branch of `convert_to_image`. -/
def normalize_pdf (pages : List Page) : Img :=
  concat_images (pdf_to_images pages)

/-- The vertical offset at which the `i`-th image is pasted. -/
def bandOffset (imgs : List Img) (i : Nat) : Nat :=
  ((imgs.take i).map (·.height)).sum

/-! ## Concrete sample data used to evaluate the definitions -/

def samplePricing : Pricing := ⟨3, 5, 7⟩

/-- A model-returned ticket whose `category` needs upper-casing and whose
`property_name` was chosen by the model. -/
def sampleTicket : JObj :=
  .cons "property_name" (.str "Y") (.cons "category" (.str "plumbing") .nil)

/-- A parsed model reply carrying one ticket and no `status` key. -/
def sampleContent : JObj :=
  .cons "response_text" (.str "ok")
    (.cons "tickets" (.arr (.cons (.obj sampleTicket) .nil)) .nil)

/-- The response `analyze_ticket_state` produces for `sampleContent` with
zero reported usage. -/
def sampleResp : ChatResp :=
  { status := .str "completed"
    response_text := .str "ok"
    tickets := [.cons "property_name" (.str "Y")
      (.cons "category" (.str "PLUMBING") .nil)]
    usage_cost := calculate_cost samplePricing "input_tokens" 0
      + calculate_cost samplePricing "output_tokens" 0 }

/-- A caller context naming property `"X"` and unit `"5B"`. -/
def ctxX : JObj :=
  .cons "property_name" (.str "X") (.cons "unit_number" (.str "5B") .nil)

/-- A model-returned ticket naming a different property and unit than the
caller context. -/
def ticketY : JObj :=
  .cons "property_name" (.str "Y")
    (.cons "unit_number" (.str "2A") (.cons "category" (.str "PLUMBING") .nil))

/-- A parsed model reply whose ticket contradicts the caller context. -/
def contentY : JObj :=
  .cons "status" (.str "completed")
    (.cons "response_text" (.str "done")
      (.cons "tickets" (.arr (.cons (.obj ticketY) .nil)) .nil))

/-- A black-box model behaviour returning `contentY` whatever the prompt
context is. -/
def modelY : JObj → Nat → JObj := fun _ _ => contentY

/-- A 2×1 page whose rendering records the DPI in the red channel. -/
def pageA : Page := ⟨fun d => ⟨2, 1, fun _ _ => ⟨d, 0, 0⟩⟩⟩

/-- A 3×2 page whose rendering records the DPI in the green channel. -/
def pageB : Page := ⟨fun d => ⟨3, 2, fun _ _ => ⟨0, d, 0⟩⟩⟩

def samplePages : List Page := [pageA, pageB]

mutual

theorem clean_idem_aux : ∀ v : Json, clean (clean v) = clean v
  | .null => rfl
  | .bool _ => rfl
  | .num _ => rfl
  | .str s => by
      by_cases h : s.trim = ""
      · simp [clean, h]
      · simp [clean, h]
  | .arr .nil => rfl
  | .arr (.cons x xs) => by
      simp [clean, cleanList, clean_idem_aux x, cleanList_idem_aux xs]
  | .obj kvs => by
      simp [clean, cleanObj_idem_aux kvs]

theorem cleanList_idem_aux : ∀ xs : JList, cleanList (cleanList xs) = cleanList xs
  | .nil => rfl
  | .cons x xs => by
      simp [cleanList, clean_idem_aux x, cleanList_idem_aux xs]

theorem cleanObj_idem_aux : ∀ kvs : JObj, cleanObj (cleanObj kvs) = cleanObj kvs
  | .nil => rfl
  | .cons k v tl => by
      simp [cleanObj, clean_idem_aux v, cleanObj_idem_aux tl]

end

/-- Writing one key leaves every other key's binding unchanged. -/
theorem jFind_jSet_ne : ∀ (d : JObj) (k k' : String) (v : Json), k' ≠ k →
    jFind (jSet d k v) k' = jFind d k'
  | .nil, k, k', v, h => by
    have h' : ¬ k = k' := fun hh => h hh.symm
    simp [jSet, jFind, h']
  | .cons a b tl, k, k', v, h => by
    by_cases hak : a = k
    · subst hak
      have h' : ¬ a = k' := fun hh => h hh.symm
      simp [jSet, jFind, h']
    · simp only [jSet, jFind, if_neg hak]
      by_cases hak' : a = k'
      · simp [jFind, hak']
      · simp [jFind, hak', jFind_jSet_ne tl k k' v h]

/-- The pixel semantics of the paste loop: inside the `i`-th vertical band
the canvas shows the `i`-th image where that image is wide enough, white
elsewhere. -/
theorem pasteColumn_band (d : Img) :
    ∀ (imgs : List Img) (i x y : Nat), i < imgs.length →
      y < (imgs.getD i d).height →
      pasteColumn imgs x (bandOffset imgs i + y) =
        if x < (imgs.getD i d).width then (imgs.getD i d).pix x y
        else white := by
  intro imgs
  induction imgs with
  | nil => intro i x y hi _; simp at hi
  | cons img rest ih =>
    intro i x y hi hy
    cases i with
    | zero =>
      simp only [List.getD_cons_zero] at hy ⊢
      simp [bandOffset, pasteColumn, hy]
    | succ i =>
      simp only [List.getD_cons_succ] at hy ⊢
      have hoff : bandOffset (img :: rest) (i + 1)
          = img.height + bandOffset rest i := by
        simp [bandOffset, List.take_succ_cons]
      rw [hoff, pasteColumn]
      rw [if_neg (by omega)]
      have harg : img.height + bandOffset rest i + y - img.height
          = bandOffset rest i + y := by omega
      rw [harg]
      exact ih i x y (by simpa using hi) hy

/-- C6: the recursive null-collapsing routine
(`InvoiceProcessor._validate_and_clean_data`) is idempotent: for every
JSON-like value (nested dicts, lists, strings, numbers, nulls), collapsing
the result of collapsing it yields the same value as collapsing it once. -/
theorem C6_clean_idempotent (v : Json) : clean (clean v) = clean v :=
  clean_idem_aux v

/-- C5: the cost calculator is a pure total function: for every quantity,
the `"audio"` kind bills `q / 60` times the per-minute rate, the
`"input_tokens"` and `"output_tokens"` kinds bill `q / 1,000,000` times the
respective per-million rate, any other kind costs `0` (the function never
errors — it is total by construction), and in particular 60 audio units
cost exactly the per-minute rate and 1,000,000 input tokens cost exactly
the input per-million rate. -/
theorem C5_calculate_cost (p : Pricing) (q : ℚ) (kind : String)
    (h : kind ≠ "audio" ∧ kind ≠ "input_tokens" ∧ kind ≠ "output_tokens") :
    calculate_cost p "audio" q = q / 60 * p.whisper_per_min ∧
    calculate_cost p "input_tokens" q = q / 1000000 * p.gpt4o_input_per_1m ∧
    calculate_cost p "output_tokens" q = q / 1000000 * p.gpt4o_output_per_1m ∧
    calculate_cost p kind q = 0 ∧
    calculate_cost p "audio" 60 = p.whisper_per_min ∧
    calculate_cost p "input_tokens" 1000000 = p.gpt4o_input_per_1m := by
  obtain ⟨h1, h2, h3⟩ := h
  refine ⟨rfl, rfl, rfl, ?_, ?_, ?_⟩
  · simp [calculate_cost, h1, h2, h3]
  · show (60 : ℚ) / 60 * p.whisper_per_min = p.whisper_per_min
    norm_num
  · show (1000000 : ℚ) / 1000000 * p.gpt4o_input_per_1m = p.gpt4o_input_per_1m
    norm_num

/-- Witness for C5 at a concrete rate table, quantity and unknown kind. -/
theorem C5_calculate_cost_witness :
    calculate_cost ⟨3, 5, 7⟩ "audio" 60 = 3 ∧
    calculate_cost ⟨3, 5, 7⟩ "unknown" 9 = 0 :=
  ⟨(C5_calculate_cost ⟨3, 5, 7⟩ 9 "unknown" (by decide)).2.2.2.2.1,
   (C5_calculate_cost ⟨3, 5, 7⟩ 9 "unknown" (by decide)).2.2.2.1⟩

/-- C1: for every upload, filename and model id, when the remote call
raises or answers without invoking `parse_invoice`, `process_file_bytes`
returns normally (the embedding is a total function of the outcome) with a
null record: all nine extracted fields are explicitly `None`,
`expense_class` is `"Other"`, and the metadata carries a descriptive error
string (the exception text for a raise, the fixed not-an-invoice message
otherwise). -/
theorem C1_model_failure_null_record (filename model_name : String)
    (t : Timing) (msg : String) (usage : TokenUsage) :
    (extractedFieldKeys.all fun k =>
      (jGet (process_file_bytes filename model_name t (.raised msg)).fields k).isNull)
      = true ∧
    jGet (process_file_bytes filename model_name t (.raised msg)).fields
      "expense_class" = .str "Other" ∧
    (process_file_bytes filename model_name t (.raised msg)).metadata.error
      = some ("Unexpected processing error: " ++ msg) ∧
    (extractedFieldKeys.all fun k =>
      (jGet (process_file_bytes filename model_name t (.noToolCall usage)).fields k).isNull)
      = true ∧
    jGet (process_file_bytes filename model_name t (.noToolCall usage)).fields
      "expense_class" = .str "Other" ∧
    (process_file_bytes filename model_name t (.noToolCall usage)).metadata.error
      = some "Document does not appear to be a valid invoice or is empty." :=
  ⟨rfl, rfl, rfl, rfl, rfl, rfl⟩

/-- C2: for every structured argument object of the model's function call,
after recursive collapsing the record is valid iff both `expense_class` and
`total_amount` are present and non-null; a valid record is returned as the
collapsed fields with success metadata (no error, no diagnostic), and an
invalid one falls back to the null-record shape with the collapsed raw
model output preserved in the metadata under `raw_ai_output`. -/
theorem C2_validity_gate (filename model_name : String) (t : Timing)
    (args : JObj) (usage : TokenUsage) :
    (validate_invoice_content (cleanObj args) = true ↔
      ((jGet (cleanObj args) "expense_class").isNull = false ∧
       (jGet (cleanObj args) "total_amount").isNull = false)) ∧
    (if validate_invoice_content (cleanObj args) then
      (process_file_bytes filename model_name t (.toolCall args usage)).fields
        = cleanObj args ∧
      (process_file_bytes filename model_name t (.toolCall args usage)).metadata.error
        = none ∧
      (process_file_bytes filename model_name t (.toolCall args usage)).metadata.raw_ai_output
        = none
    else
      (process_file_bytes filename model_name t (.toolCall args usage)).fields
        = nullFields ∧
      (process_file_bytes filename model_name t (.toolCall args usage)).metadata.raw_ai_output
        = some (.obj (cleanObj args)) ∧
      (process_file_bytes filename model_name t (.toolCall args usage)).metadata.error
        = some "Document does not appear to be a valid invoice or is empty.") := by
  constructor
  · simp [validate_invoice_content, Bool.and_eq_true]
  · by_cases h : validate_invoice_content (cleanObj args) = true
    · simp only [h, if_true]
      refine ⟨?_, ?_, ?_⟩ <;> simp [process_file_bytes, h]
    · simp only [Bool.not_eq_true] at h
      simp only [h, Bool.false_eq_true, if_false]
      refine ⟨?_, ?_, ?_⟩ <;> simp [process_file_bytes, h, nullResponse]

/-- C9: for every transcription request, the transient audio file does not
exist once the handler finishes, on every exit path — whether the duration
decode succeeds or fails and whether the remote transcription call returns
or raises — and a remote raise is surfaced as a 500 error while the file is
still removed. -/
theorem C9_temp_file_cleanup (p : Pricing) (durationResult : Option ℚ)
    (remote : Except String String) :
    (transcribe_audio p durationResult remote).2 = false ∧
    (transcribe_audio p durationResult remote).1 =
      (match remote with
       | .ok text =>
         .ok text (calculate_cost p "audio" (get_audio_duration durationResult))
       | .error e => .httpError 500 e) := by
  cases remote <;> simp [transcribe_audio]

/-- C10: when PDF rendering yields an empty page list, the concatenation
step returns a 1×1 white RGB image instead of failing, so normalization of
a zero-page PDF still produces an image. -/
theorem C10_empty_concat (x y : Nat) :
    (concat_images []).width = 1 ∧ (concat_images []).height = 1 ∧
    (concat_images []).pix x y = white ∧
    (normalize_pdf []).width = 1 ∧ (normalize_pdf []).height = 1 ∧
    (normalize_pdf []).pix x y = white :=
  ⟨rfl, rfl, rfl, rfl, rfl, rfl⟩

/-- C3: for every ticket in the model's returned ticket list, the chat
post-processing sets `category` to the upper-cased model value when that
upper-cased value is in the fixed enumerated set and to exactly `"OTHER"`
otherwise, and the response `status` equals the model-supplied status when
present and `"completed"` when the model output has no status field. -/
theorem C3_ticket_sanitization (content : JObj) (ts : JList) (i o : ℚ)
    (p : Pricing) (r : ChatResp) (t : JObj) (s : String)
    (hts : jGetD content "tickets" (.arr .nil) = .arr ts)
    (hr : analyze_ticket_state content i o p = some r)
    (hcat : jGetD t "category" (.str "") = .str s) :
    sanitizeTickets ts = some r.tickets ∧
    sanitizeTicket t = some (jSet t "category"
      (.str (if ALLOWED_CATEGORIES.contains (pyUpper s) then pyUpper s
             else "OTHER"))) ∧
    (∀ v : Json, jFind content "status" = some v → r.status = v) ∧
    (jFind content "status" = none → r.status = .str "completed") := by
  rw [analyze_ticket_state, hts] at hr
  simp only [Option.map_eq_some'] at hr
  obtain ⟨tks, htks, hrec⟩ := hr
  refine ⟨?_, ?_, ?_, ?_⟩
  · rw [htks, ← hrec]
  · rw [sanitizeTicket, hcat]
  · intro v hv
    rw [← hrec]
    simp [jGetD, hv]
  · intro hnone
    rw [← hrec]
    simp [jGetD, hnone]

/-- Witness for C3 on a concrete reply: one ticket with category
`"plumbing"` (upper-cased and kept, since `"PLUMBING"` is in the set) and
no status key (defaulted to `"completed"`). -/
theorem C3_ticket_sanitization_witness :
    sanitizeTicket sampleTicket = some (.cons "property_name" (.str "Y")
      (.cons "category" (.str "PLUMBING") .nil)) ∧
    sampleResp.status = .str "completed" := by
  have T := C3_ticket_sanitization sampleContent
      (.cons (.obj sampleTicket) .nil) 0 0 samplePricing sampleResp
      sampleTicket "plumbing" (by decide) rfl (by decide)
  refine ⟨T.2.1.trans (by decide), T.2.2.2 (by decide)⟩

/-- C4 is false on the code: the chat post-processing rewrites only
`category`, so a ticket the model fills with a property and unit different
from the caller context is returned unchanged.  Formally, it is not the
case that every returned ticket carries the context's `property_name` and
`unit_number` whatever the black-box model replies. -/
theorem C4_counterexample :
    ¬ (∀ (model : JObj → Nat → JObj) (ctx : JObj) (n : Nat) (i o : ℚ)
        (p : Pricing) (r : ChatResp),
        converse model ctx n i o p = some r →
        ∀ t ∈ r.tickets,
          jGet t "property_name" = jGet ctx "property_name" ∧
          jGet t "unit_number" = jGet ctx "unit_number") := by
  intro hclaim
  have h := hclaim modelY ctxX 0 0 0 samplePricing
      { status := .str "completed"
        response_text := .str "done"
        tickets := [ticketY]
        usage_cost := calculate_cost samplePricing "input_tokens" 0
          + calculate_cost samplePricing "output_tokens" 0 }
      rfl ticketY (by simp)
  exact absurd h.1 (by decide)

/-- C4 (amended): the chat post-processing passes `property_name` and
`unit_number` (and every key other than `category`) through from the
model-supplied ticket unchanged; the caller context reaches the ticket only
through the system prompt given to the black-box model, so the tickets
equal the context values only when the model itself copies them. -/
theorem C4_context_passthrough (t t' : JObj)
    (h : sanitizeTicket t = some t') :
    jFind t' "property_name" = jFind t "property_name" ∧
    jFind t' "unit_number" = jFind t "unit_number" ∧
    ∀ k, k ≠ "category" → jFind t' k = jFind t k := by
  suffices hk : ∀ k, k ≠ "category" → jFind t' k = jFind t k by
    exact ⟨hk _ (by decide), hk _ (by decide), hk⟩
  intro k hkne
  rw [sanitizeTicket] at h
  cases hc : jGetD t "category" (.str "") with
  | str s =>
    rw [hc] at h
    simp only [Option.some_inj] at h
    rw [← h]
    exact jFind_jSet_ne t "category" k _ hkne
  | null => rw [hc] at h; exact absurd h (by simp)
  | bool b => rw [hc] at h; exact absurd h (by simp)
  | num q => rw [hc] at h; exact absurd h (by simp)
  | arr xs => rw [hc] at h; exact absurd h (by simp)
  | obj kvs => rw [hc] at h; exact absurd h (by simp)

/-- Witness for the amended C4 on a concrete sanitized ticket. -/
theorem C4_context_passthrough_witness :
    jFind (JObj.cons "property_name" (.str "Y")
      (.cons "category" (.str "PLUMBING") .nil)) "property_name"
      = jFind sampleTicket "property_name" :=
  (C4_context_passthrough sampleTicket _ (by decide)).1

/-- C7: for every well-formed (at least one page) PDF, normalization
renders only the first 3 pages at 150 DPI; the resulting single image
stacks them top-to-bottom in document order, its width is the maximum of
the rendered page widths, its height the sum of their heights, and inside
each page's band the canvas shows the page's pixels where the page is wide
enough and white elsewhere. -/
theorem C7_pdf_normalization (pages : List Page) (h : pages ≠ []) :
    pdf_to_images pages = pdf_to_images (pages.take 3) ∧
    (pdf_to_images pages).length = min 3 pages.length ∧
    (∀ i, i < (pdf_to_images pages).length →
      (pdf_to_images pages).getD i (whiteImg 0 0)
        = (pages.getD i dummyPage).render 150) ∧
    (normalize_pdf pages).width
      = ((pdf_to_images pages).map (·.width)).foldr max 0 ∧
    (normalize_pdf pages).height
      = ((pdf_to_images pages).map (·.height)).sum ∧
    (∀ i x y, i < (pdf_to_images pages).length →
      y < ((pdf_to_images pages).getD i (whiteImg 0 0)).height →
      (normalize_pdf pages).pix x (bandOffset (pdf_to_images pages) i + y) =
        if x < ((pdf_to_images pages).getD i (whiteImg 0 0)).width
        then ((pdf_to_images pages).getD i (whiteImg 0 0)).pix x y
        else white) := by
  have hne : pdf_to_images pages ≠ [] := by
    simp only [pdf_to_images, ne_eq, List.map_eq_nil_iff, List.take_eq_nil_iff]
    simpa using h
  obtain ⟨a, as, himgs⟩ := List.exists_cons_of_ne_nil hne
  have hconcat : concat_images (pdf_to_images pages) =
      { width := ((pdf_to_images pages).map (·.width)).foldr max 0
        height := ((pdf_to_images pages).map (·.height)).sum
        pix := pasteColumn (pdf_to_images pages) } := by
    rw [himgs]; rfl
  refine ⟨?_, ?_, ?_, ?_, ?_, ?_⟩
  · simp [pdf_to_images, List.take_take]
  · simp [pdf_to_images]
  · intro i hi
    have hi3 : i < min 3 pages.length := by
      simpa [pdf_to_images] using hi
    have hip : i < pages.length := lt_of_lt_of_le hi3 (min_le_right _ _)
    have hit : i < (pages.take 3).length := by
      simp [List.length_take]; omega
    simp [pdf_to_images, List.getD_eq_getElem?_getD, List.getElem?_map,
      List.getElem?_take, hi3, hit, hip, List.getElem?_eq_getElem,
      Nat.lt_min.mp hi3]
  · rw [normalize_pdf, hconcat]
  · rw [normalize_pdf, hconcat]
  · intro i x y hi hy
    rw [normalize_pdf, hconcat]
    exact pasteColumn_band (whiteImg 0 0) (pdf_to_images pages) i x y hi hy

/-- Witness for C7 on a two-page PDF whose renderings record the DPI in a
colour channel: width is the max page width, height the sum, page pixels
appear at the stacked offsets (with the 150 DPI mark), and the area right
of the narrow first page is white. -/
theorem C7_pdf_normalization_witness :
    (normalize_pdf samplePages).width = 3 ∧
    (normalize_pdf samplePages).height = 3 ∧
    (normalize_pdf samplePages).pix 0 0 = ⟨150, 0, 0⟩ ∧
    (normalize_pdf samplePages).pix 2 0 = white ∧
    (normalize_pdf samplePages).pix 1 2 = ⟨0, 150, 0⟩ := by
  have T := C7_pdf_normalization samplePages (by simp [samplePages])
  have h00 := T.2.2.2.2.2 0 0 0 (by decide) (by decide)
  have h20 := T.2.2.2.2.2 0 2 0 (by decide) (by decide)
  have h12 := T.2.2.2.2.2 1 1 1 (by decide) (by decide)
  refine ⟨T.2.2.2.1.trans (by decide), T.2.2.2.2.1.trans (by decide),
    ?_, ?_, ?_⟩
  · simpa [samplePages, pageA, pageB, pdf_to_images, bandOffset] using h00
  · simpa [samplePages, pageA, pageB, pdf_to_images, bandOffset] using h20
  · simpa [samplePages, pageA, pageB, pdf_to_images, bandOffset] using h12

/-- C8 is false as stated: the gate tests
`filename.lower().endswith(ext)`, not the extension after the final dot,
so the dot-free filename `"xpdf"` passes the gate while its extension
(`"xpdf"`) is outside the allowed set. -/
theorem C8_counterexample :
    parse_invoice_gate (some "xpdf") 1 = .accept ∧
    extensionOf "xpdf" ∉ ALLOWED_EXTENSIONS := by
  decide

/-- C8 (amended): the upload gate rejects an absent filename with 400, a
filename whose lower-cased form ends with no allowed extension with 400, a
zero-byte file with 400 and an oversized file with 413; and every accepted
upload's lower-cased filename ends with one of `pdf`, `png`, `jpg`, `jpeg`
(a suffix match, not necessarily the part after the final dot) and has a
size in `(0, 10 MiB]`. -/
theorem C8_upload_gate (name good bad : String) (size big : Nat)
    (hacc : parse_invoice_gate (some name) size = .accept)
    (hgood : (ALLOWED_EXTENSIONS.any fun ext => pyEndsWith (pyLower good) ext) = true)
    (hbad : (ALLOWED_EXTENSIONS.any fun ext => pyEndsWith (pyLower bad) ext) = false)
    (hbig : MAX_FILE_SIZE < big) :
    parse_invoice_gate none size = .reject 400 ∧
    parse_invoice_gate (some bad) size = .reject 400 ∧
    parse_invoice_gate (some good) 0 = .reject 400 ∧
    parse_invoice_gate (some good) big = .reject 413 ∧
    (ALLOWED_EXTENSIONS.any fun ext => pyEndsWith (pyLower name) ext) = true ∧
    0 < size ∧ size ≤ MAX_FILE_SIZE := by
  have hbig0 : ¬ big = 0 := by omega
  refine ⟨rfl, ?_, ?_, ?_, ?_⟩
  · simp [parse_invoice_gate, hbad]
  · simp [parse_invoice_gate, hgood]
  · simp [parse_invoice_gate, hgood, hbig0, hbig]
  · simp only [parse_invoice_gate] at hacc
    by_cases h1 : (ALLOWED_EXTENSIONS.any fun ext => pyEndsWith (pyLower name) ext) = true
    · rw [h1] at hacc
      simp only [Bool.not_true, Bool.false_eq_true, if_false] at hacc
      by_cases h2 : size = 0
      · rw [if_pos h2] at hacc; exact GateResult.noConfusion hacc
      · rw [if_neg h2] at hacc
        by_cases h3 : MAX_FILE_SIZE < size
        · rw [if_pos h3] at hacc; exact GateResult.noConfusion hacc
        · exact ⟨h1, by omega, by omega⟩
    · rw [Bool.not_eq_true] at h1
      rw [h1] at hacc
      simp only [Bool.not_false, if_true] at hacc
      exact GateResult.noConfusion hacc

/-- Witness for the amended C8 at concrete uploads: a missing filename, a
`.txt` file, an empty `.pdf`, an 11-MiB-ish `.pdf` and an accepted
`.png`. -/
theorem C8_upload_gate_witness :
    parse_invoice_gate none 5 = .reject 400 ∧
    parse_invoice_gate (some "a.txt") 5 = .reject 400 ∧
    parse_invoice_gate (some "a.pdf") 0 = .reject 400 ∧
    parse_invoice_gate (some "a.pdf") (10 * 1024 * 1024 + 1) = .reject 413 ∧
    (ALLOWED_EXTENSIONS.any fun ext => pyEndsWith (pyLower "b.png") ext) = true ∧
    0 < 5 ∧ 5 ≤ MAX_FILE_SIZE :=
  C8_upload_gate "b.png" "a.pdf" "a.txt" 5 (10 * 1024 * 1024 + 1)
    (by decide) (by decide) (by decide) (by decide)

end MyteAI
